import Mathlib

/-!
Verification of the PeerGrade scoring pipeline.

This file shallowly embeds the backend scoring services of the PeerGrade
repository (skill-score recomputation, credibility recomputation, the
legacy running-average skill score, the feedback / grading / session
trigger call sites, and the read-only credibility view) as pure Lean
functions over an explicit document-store state, and proves the spec's
claims about them.

Conventions of the embedding:
- Firestore collections become lists of records inside a `Store` value;
  an equality-filtered query becomes `List.filter`, a point lookup by
  document id becomes `List.find?` on the `id` field (every record in
  this codebase stores its own document id in an `id` field).
- JavaScript numbers are modelled as `ℚ`; `Math.round` is
  `⌊x + 1/2⌋` (which is exactly `Math.round`'s behaviour on finite
  doubles, half-up), `Math.min`/`Math.max` are `min`/`max`.
- A JS field that may be `undefined`/`null` and is read with `|| 0` or
  `?? 0` is modelled as an `Option` read with `Option.getD 0`.
- `async` functions that can throw become functions returning
  `Except (SvcError × Store) (α × Store)`: the store carried in the
  error is the state of the database at the moment of the throw (writes
  that already happened persist; there are no transactions here).
- Timestamps (`new Date().toISOString()`) and uuids are passed in as
  explicit `String` arguments, since they are environment inputs.
-/

namespace PeerGrade

/-- JavaScript `Math.round`: round half up, `⌊x + 1/2⌋`. -/
def jsRound (x : ℚ) : ℤ := ⌊x + 1 / 2⌋

/-- `Math.round(x * 100) / 100`: round to two decimal places. -/
def jsRound2 (x : ℚ) : ℚ := (jsRound (x * 100) : ℚ) / 100

theorem jsRound_eq_round (x : ℚ) : jsRound x = round x := (round_eq x).symm

/-- Status code plus carried store state at the moment of the throw. -/
abbrev SvcError := ℕ

/-- One document of the `assignments` collection (fields used by the
scoring pipeline and by `gradeAssignment`). -/
structure Assignment where
  id : String
  sessionId : String
  userId : String
  skillId : String
  skillName : String
  /-- Question ids; the texts are irrelevant to the scoring pipeline. -/
  questions : List String
  submitted : Bool
  graded : Bool
  /-- Set by `gradeAssignment`; absent until then (read with `|| 0`). -/
  finalScore : Option ℚ
  gradedBy : Option String
  gradedAt : Option String
  graderComment : Option String
  deriving DecidableEq

/-- One document of the `feedback` collection. -/
structure Feedback where
  id : String
  sessionId : String
  fromUserId : String
  toUserId : String
  /-- Role of the giver; the session-service writer omits it. -/
  role : Option String
  rating : ℚ
  comment : String
  createdAt : String
  deriving DecidableEq

/-- One document of the `sessions` collection. -/
structure Session where
  id : String
  mode : String
  teacherId : String
  teacherName : String
  learnerId : String
  learnerName : String
  skillId : String
  skillName : String
  learnerSkill : Option String
  scheduledAt : Option String
  status : String
  endedAt : Option String
  completedAt : Option String
  deriving DecidableEq

/-- One document of the `skillScores` collection (the authoritative
per-(user, skill) score snapshot). -/
structure SkillScoreRecord where
  id : String
  userId : String
  skillId : String
  skillName : String
  assignmentAvg : ℤ
  feedbackAvg : ℤ
  sessionCount : ℕ
  finalScore : ℤ
  updatedAt : String
  deriving DecidableEq

/-- One document of the legacy `userSkills` collection. -/
structure UserSkill where
  id : String
  userId : String
  skillId : String
  skillName : String
  /-- `'teach'` / `'learn'`; used by the credibility view's skill counts. -/
  type : String
  score : ℚ
  sessions : ℕ
  lastUpdated : String
  deriving DecidableEq

/-- The `credibilityStats` sub-object stored on a user document. -/
structure CredStatsStored where
  avgSkillScore : ℤ
  avgTeachingRating : ℤ
  sessionCount : ℕ
  consistencyBonus : ℤ
  updatedAt : String
  deriving DecidableEq

/-- One document of the `users` collection (fields read by the pipeline). -/
structure UserDoc where
  id : String
  credibilityScore : Option ℤ
  credibilityStats : Option CredStatsStored
  deriving DecidableEq

/-- The whole document store, one list per collection. -/
structure Store where
  assignments : List Assignment
  feedback : List Feedback
  sessions : List Session
  skillScores : List SkillScoreRecord
  userSkills : List UserSkill
  users : List UserDoc
  deriving DecidableEq

/-! ## Skill Score Service (`skillScoreService.js`)

`recomputeSkillScore(userId, skillId, skillName)` recalculates the
per-(user, skill) snapshot from scratch and upserts it under the
document id `userId + "_" + skillId`. -/

namespace SkillScoreService

/-- Step 1 query: assignments `where userId == u, skillId == s, graded == true`. -/
def gradedAssignmentsOf (st : Store) (userId skillId : String) : List Assignment :=
  st.assignments.filter fun a => a.userId = userId ∧ a.skillId = skillId ∧ a.graded

/-- Step 1: `forEach` accumulation of `(data.finalScore || 0) * 20`,
divided by the snapshot size; `0` when the snapshot is empty. -/
def assignmentAvgOf (st : Store) (userId skillId : String) : ℚ :=
  let snap := gradedAssignmentsOf st userId skillId
  if snap.isEmpty then 0
  else (snap.foldl (fun tot a => tot + a.finalScore.getD 0 * 20) 0) / snap.length

/-- Step 2 query: feedback `where toUserId == u` (skill filtering happens
later, against the session id set). -/
def feedbackToUserOf (st : Store) (userId : String) : List Feedback :=
  st.feedback.filter fun f => f.toUserId = userId

/-- Step 3 query plus the participant filter: completed sessions of this
skill in which the user is learner or teacher. -/
def relevantSessionsOf (st : Store) (userId skillId : String) : List Session :=
  (st.sessions.filter fun s => s.skillId = skillId ∧ s.status = "completed").filter
    fun s => s.learnerId = userId ∨ s.teacherId = userId

def sessionCountOf (st : Store) (userId skillId : String) : ℕ :=
  (relevantSessionsOf st userId skillId).length

/-- `Math.min(sessionCount * 10, 100)`. -/
def consistencyScoreOf (st : Store) (userId skillId : String) : ℕ :=
  min (sessionCountOf st userId skillId * 10) 100

/-- Feedback whose `sessionId` is in the id set of the relevant sessions. -/
def relevantFeedbackOf (st : Store) (userId skillId : String) : List Feedback :=
  (feedbackToUserOf st userId).filter fun f =>
    f.sessionId ∈ (relevantSessionsOf st userId skillId).map (·.id)

/-- `forEach` accumulation of `(fb.rating || 0)`, then `(total/count) * 20`;
`0` when no relevant feedback exists. -/
def feedbackAvgOf (st : Store) (userId skillId : String) : ℚ :=
  let rel := relevantFeedbackOf st userId skillId
  if rel.isEmpty then 0
  else (rel.foldl (fun tot f => tot + f.rating) 0) / rel.length * 20

/-- `assignmentAvg * 0.60 + feedbackAvg * 0.30 + consistencyScore * 0.10`. -/
def weightedScoreOf (st : Store) (userId skillId : String) : ℚ :=
  assignmentAvgOf st userId skillId * 0.60 +
    feedbackAvgOf st userId skillId * 0.30 +
    (consistencyScoreOf st userId skillId : ℚ) * 0.10

def finalScoreOf (st : Store) (userId skillId : String) : ℤ :=
  jsRound (weightedScoreOf st userId skillId)

/-- The record written by `recomputeSkillScore` (the stored averages are
rounded; `finalScore` is computed from the unrounded averages). -/
def recomputeSkillScore (st : Store) (userId skillId skillName now : String) :
    SkillScoreRecord :=
  { id := userId ++ "_" ++ skillId
    userId := userId
    skillId := skillId
    skillName := skillName
    assignmentAvg := jsRound (assignmentAvgOf st userId skillId)
    feedbackAvg := jsRound (feedbackAvgOf st userId skillId)
    sessionCount := sessionCountOf st userId skillId
    finalScore := finalScoreOf st userId skillId
    updatedAt := now }

/-- `doc(scoreId).set(scoreData)`: replace the document with that id, or
append it if absent. -/
def upsertSkillScore (l : List SkillScoreRecord) (r : SkillScoreRecord) :
    List SkillScoreRecord :=
  if l.any (fun x => x.id = r.id) then l.map (fun x => if x.id = r.id then r else x)
  else l ++ [r]

/-- `recomputeSkillScore` including its single write to the store. -/
def recomputeSkillScoreRun (st : Store) (userId skillId skillName now : String) :
    SkillScoreRecord × Store :=
  let r := recomputeSkillScore st userId skillId skillName now
  (r, { st with skillScores := upsertSkillScore st.skillScores r })

end SkillScoreService

/-! ## Credibility Service (`credibilityService.js`)

`recomputeCredibilityScore(userId)` blends the user's top-3 skill
scores with the average teaching-feedback rating, adds a step-function
consistency bonus, clamps to 0–100, rounds, and writes the result onto
the user document. -/

namespace CredibilityService

/-- `where userId == u, orderBy finalScore desc, limit 3`. -/
def topSkillScores (st : Store) (userId : String) : List SkillScoreRecord :=
  ((st.skillScores.filter fun r => r.userId = userId).insertionSort
    fun a b => b.finalScore ≤ a.finalScore).take 3

/-- Average of the top-3 `finalScore`s; `0` when the snapshot is empty. -/
def avgSkillScoreOf (st : Store) (userId : String) : ℚ :=
  let snap := topSkillScores st userId
  if snap.isEmpty then 0
  else (snap.foldl (fun tot r => tot + (r.finalScore : ℚ)) 0) / snap.length

/-- `where toUserId == u, role == 'learner'`: feedback received from a
learner, i.e. received while the user was teaching. -/
def teachingFeedbackOf (st : Store) (userId : String) : List Feedback :=
  st.feedback.filter fun f => f.toUserId = userId ∧ f.role = some "learner"

/-- `(total / size) / 5 * 100`; `0` when the snapshot is empty. -/
def avgTeachingRatingOf (st : Store) (userId : String) : ℚ :=
  let snap := teachingFeedbackOf st userId
  if snap.isEmpty then 0
  else (snap.foldl (fun tot f => tot + f.rating) 0) / snap.length / 5 * 100

def completedLearnerSessions (st : Store) (userId : String) : List Session :=
  st.sessions.filter fun s => s.learnerId = userId ∧ s.status = "completed"

def completedTeacherSessions (st : Store) (userId : String) : List Session :=
  st.sessions.filter fun s => s.teacherId = userId ∧ s.status = "completed"

/-- `learnerSessions.size + teacherSessions.size` (two queries summed). -/
def credSessionCountOf (st : Store) (userId : String) : ℕ :=
  (completedLearnerSessions st userId).length +
    (completedTeacherSessions st userId).length

/-- The step-function consistency bonus over a session count. -/
def consistencyBonusFor (sessionCount : ℕ) : ℤ :=
  if 30 ≤ sessionCount then 10
  else if 15 ≤ sessionCount then 5
  else if 5 ≤ sessionCount then 2
  else 0

def consistencyBonusOf (st : Store) (userId : String) : ℤ :=
  consistencyBonusFor (credSessionCountOf st userId)

/-- The pre-bonus value of the `finalScore` variable: the if/else chain
on the emptiness of the two snapshots, with `baseScore` the arithmetic
mean of the two averages. -/
def credBaseOf (st : Store) (userId : String) : ℚ :=
  let baseScore := (avgSkillScoreOf st userId + avgTeachingRatingOf st userId) / 2
  if (topSkillScores st userId).isEmpty ∧ (teachingFeedbackOf st userId).isEmpty then 0
  else if (teachingFeedbackOf st userId).isEmpty then avgSkillScoreOf st userId
  else if (topSkillScores st userId).isEmpty then avgTeachingRatingOf st userId
  else baseScore

/-- `finalScore += bonus; clamp to [0,100]; Math.round`. -/
def credibilityScoreOf (st : Store) (userId : String) : ℤ :=
  jsRound (min (max (credBaseOf st userId + (consistencyBonusOf st userId : ℚ)) 0) 100)

/-- The `credibilityStats` sub-object written onto the user document
(stored averages are rounded). -/
def credStatsStoredOf (st : Store) (userId now : String) : CredStatsStored :=
  { avgSkillScore := jsRound (avgSkillScoreOf st userId)
    avgTeachingRating := jsRound (avgTeachingRatingOf st userId)
    sessionCount := credSessionCountOf st userId
    consistencyBonus := consistencyBonusOf st userId
    updatedAt := now }

/-- `recomputeCredibilityScore` including its single write: a Firestore
`update` on the user document, which throws (404-like) when the
document does not exist. On success it returns the new score together
with the raw (unrounded) stats, exactly as the source returns them. -/
def recomputeCredibilityScoreRun (st : Store) (userId now : String) :
    Except (SvcError × Store) ((ℤ × ℚ × ℚ × ℕ × ℤ) × Store) :=
  if st.users.any (fun u => u.id = userId) then
    let st1 : Store :=
      { st with users := st.users.map fun u =>
          if u.id = userId then
            { u with credibilityScore := some (credibilityScoreOf st userId)
                     credibilityStats := some (credStatsStoredOf st userId now) }
          else u }
    .ok ((credibilityScoreOf st userId, avgSkillScoreOf st userId,
          avgTeachingRatingOf st userId, credSessionCountOf st userId,
          consistencyBonusOf st userId), st1)
  else .error (404, st)

end CredibilityService

/-! ## User Skills Service (`userSkillsService.js`, legacy) -/

namespace UserSkillsService

/-- `getOrCreateUserSkill`: point lookup of `userId_skillId`, creating a
zeroed record when absent. Returns the record and the store. -/
def getOrCreateUserSkill (st : Store) (userId skillId skillName now : String) :
    UserSkill × Store :=
  let docId := userId ++ "_" ++ skillId
  match st.userSkills.find? (fun u => u.id = docId) with
  | some u => (u, st)
  | none =>
    let newSkill : UserSkill :=
      { id := docId, userId := userId, skillId := skillId, skillName := skillName
        type := "", score := 0, sessions := 0, lastUpdated := now }
    (newSkill, { st with userSkills := st.userSkills ++ [newSkill] })

/-- `updateSkillScore`: incremental running average
`newScore = (oldScore * sessions + finalScore * 20) / (sessions + 1)`,
rounded to two decimals before being stored; `sessions` is incremented
by one. Returns the updated record as the source does (spread of the
old record with the new fields). -/
def updateSkillScore (st : Store) (userId skillId skillName : String)
    (finalScore : ℚ) (now : String) : UserSkill × Store :=
  let p := getOrCreateUserSkill st userId skillId skillName now
  let userSkill := p.1
  let st0 := p.2
  let assignmentScore := finalScore * 20
  let oldScore := userSkill.score
  let sessions := userSkill.sessions
  let newScore := (oldScore * sessions + assignmentScore) / (sessions + 1)
  let roundedScore := jsRound2 newScore
  let docId := userId ++ "_" ++ skillId
  let updated :=
    { userSkill with score := roundedScore, sessions := sessions + 1, lastUpdated := now }
  (updated,
   { st0 with userSkills := st0.userSkills.map fun u =>
       if u.id = docId then
         { u with score := roundedScore, sessions := sessions + 1, lastUpdated := now }
       else u })

end UserSkillsService

/-! ## Feedback Service (`feedbackService.js`)

`submitFeedback` writes the feedback record and then invokes the two
recomputes with a plain `await` (no `try`/`catch`): the recompute calls
are injected as `Except`-returning functions so that a throwing
recompute can be modelled. An error carries the store at the moment of
the throw. -/

namespace FeedbackService

/-- The signature of `recomputeSkillScore` as seen from a call site:
store, `toUserId`, `skillId`, `skillName`. -/
abbrev ReSkillFn := Store → String → String → String → Except Unit Store

/-- The signature of `recomputeCredibilityScore` as seen from a call site. -/
abbrev ReCredFn := Store → String → Except Unit Store

/-- `submitFeedback(sessionId, userId, { rating, comment })`. -/
def submitFeedback (reSkill : ReSkillFn) (reCred : ReCredFn) (st : Store)
    (freshId now sessionId userId : String) (rating : ℚ) (comment : Option String) :
    Except (SvcError × Store) (Feedback × Store) :=
  if rating < 1 ∨ 5 < rating then .error (400, st)
  else
    match st.sessions.find? (fun s => s.id = sessionId) with
    | none => .error (404, st)
    | some session =>
      if session.status ≠ "completed" then .error (400, st)
      else
        let isTeacher := session.teacherId = userId
        let isLearner := session.learnerId = userId
        if ¬isTeacher ∧ ¬isLearner then .error (403, st)
        else if ¬(st.feedback.filter fun f =>
            f.sessionId = sessionId ∧ f.fromUserId = userId).isEmpty then
          .error (409, st)
        else
          let role := if isTeacher then "teacher" else "learner"
          let toUserId := if isTeacher then session.learnerId else session.teacherId
          let fb : Feedback :=
            { id := freshId, sessionId := sessionId, fromUserId := userId
              toUserId := toUserId, role := some role, rating := rating
              comment := comment.getD "", createdAt := now }
          let st1 : Store := { st with feedback := st.feedback ++ [fb] }
          match
            (if session.skillId ≠ "" ∧ session.skillName ≠ "" then
              reSkill st1 toUserId session.skillId session.skillName
            else .ok st1) with
          | .error _ => .error (500, st1)
          | .ok st2 =>
            match reCred st2 toUserId with
            | .error _ => .error (500, st2)
            | .ok st3 => .ok (fb, st3)

end FeedbackService

/-! ## Assignment Service (`assignmentService.js`)

`gradeAssignment` validates, writes the grade onto the assignment,
updates the legacy running average, and then invokes the two recomputes
with a plain `await` (no `try`/`catch`), injected as in
`FeedbackService`. -/

namespace AssignmentService

/-- `gradeAssignment(assignmentId, graderId, scores, comment)`. The per
question validation loop (missing score, non-number, out of 1–5) is
collapsed into one check since every violation throws a 400. -/
def gradeAssignment (reSkill : FeedbackService.ReSkillFn)
    (reCred : FeedbackService.ReCredFn) (st : Store)
    (now assignmentId graderId : String) (scores : List (String × ℚ))
    (comment : String) : Except (SvcError × Store) (Assignment × Store) :=
  match st.assignments.find? (fun a => a.id = assignmentId) with
  | none => .error (404, st)
  | some assignment =>
    match st.sessions.find? (fun s => s.id = assignment.sessionId) with
    | none => .error (404, st)
    | some session =>
      if session.teacherId ≠ graderId then .error (403, st)
      else if ¬assignment.submitted then .error (400, st)
      else if assignment.graded then .error (400, st)
      else if ¬(assignment.questions.all fun qId =>
          match scores.lookup qId with
          | none => false
          | some v => decide (1 ≤ v ∧ v ≤ 5)) then .error (400, st)
      else
        let scoreValues := scores.map (·.2)
        let finalScore :=
          (scoreValues.foldl (fun sum s => sum + s) (0 : ℚ)) / scoreValues.length
        let roundedFinalScore := jsRound2 finalScore
        let updated :=
          { assignment with graded := true, gradedBy := some graderId
                            gradedAt := some now
                            finalScore := some roundedFinalScore
                            graderComment := some comment }
        let st1 : Store :=
          { st with assignments := st.assignments.map fun a =>
              if a.id = assignmentId then updated else a }
        let st2 :=
          (UserSkillsService.updateSkillScore st1 assignment.userId
            assignment.skillId assignment.skillName roundedFinalScore now).2
        match reSkill st2 assignment.userId assignment.skillId assignment.skillName with
        | .error _ => .error (500, st2)
        | .ok st3 =>
          match reCred st3 assignment.userId with
          | .error _ => .error (500, st3)
          | .ok st4 =>
            -- The source re-fetches the document after the recomputes;
            -- the default covers the unreachable case of the document
            -- having vanished meanwhile.
            .ok ((st4.assignments.find? (fun a => a.id = assignmentId)).getD updated,
                 st4)

end AssignmentService

/-! ## Session Service (the unnamed session-service source file)

`completeSession` flips a scheduled/ongoing session to `'completed'`
and then, inside a `try`/`catch` that only logs, creates assignments
and triggers the recomputes for both participants. That post-completion
block is injected as one `Except`-returning function: a failure of it is
swallowed and the completion still succeeds. -/

namespace SessionService

/-- The post-completion side-effect block (assignment creation plus the
four recompute calls), as invoked on the updated session. -/
abbrev PostFn := Store → Session → Except Unit Store

def completeSession (post : PostFn) (st : Store) (now sessionId userId : String) :
    Except (SvcError × Store) (Session × Store) :=
  match st.sessions.find? (fun s => s.id = sessionId) with
  | none => .error (404, st)
  | some session =>
    if session.teacherId ≠ userId ∧ session.learnerId ≠ userId then .error (403, st)
    else if session.status = "completed" then .ok (session, st)
    else if session.status ≠ "scheduled" ∧ session.status ≠ "ongoing" then
      .error (400, st)
    else
      let updated := { session with status := "completed", endedAt := some now
                                    completedAt := some now }
      let st1 : Store :=
        { st with sessions := st.sessions.map fun s =>
            if s.id = sessionId then updated else s }
      match post st1 updated with
      | .ok st2 => .ok (updated, st2)
      | .error _ => .ok (updated, st1)

end SessionService

/-! ## Credibility view (`getCredibility`) -/

/-- The rating histogram of the view, as percentages (keys 5 down to 1). -/
structure RatingPercentages where
  p5 : ℤ
  p4 : ℤ
  p3 : ℤ
  p2 : ℤ
  p1 : ℤ
  deriving DecidableEq

/-- One row of `upcomingSessions` in the view. -/
structure UpcomingRow where
  id : String
  skill : String
  teacherName : String
  learnerName : String
  dateTime : Option String
  status : String
  role : String
  deriving DecidableEq

/-- The legacy `stats` sub-object of the view. -/
structure CredStatsView where
  avgSkillScore : ℤ
  avgTeachingRating : ℤ
  sessionCount : ℕ
  consistencyBonus : ℤ
  deriving DecidableEq

/-- The full `CredibilityView` shape; every field is total, so a value
of this type can never have a missing/undefined field. -/
structure CredView where
  credibilityScore : ℤ
  sessionsCompleted : ℕ
  studentsCount : ℕ
  teachingHours : ℕ
  avgRating : ℚ
  ratingBreakdown : RatingPercentages
  skillsTaughtCount : ℕ
  skillsLearnedCount : ℕ
  totalReviews : ℕ
  upcomingSessions : List UpcomingRow
  stats : CredStatsView
  deriving DecidableEq

/-- The `defaultResponse` object: all-zero / empty-collection defaults. -/
def defaultCredView : CredView :=
  { credibilityScore := 0, sessionsCompleted := 0, studentsCount := 0
    teachingHours := 0, avgRating := 0
    ratingBreakdown := { p5 := 0, p4 := 0, p3 := 0, p2 := 0, p1 := 0 }
    skillsTaughtCount := 0, skillsLearnedCount := 0, totalReviews := 0
    upcomingSessions := [], stats := { avgSkillScore := 0, avgTeachingRating := 0
                                       sessionCount := 0, consistencyBonus := 0 } }

namespace CredibilityService

/-- `x || null` on a nullable string field: empty string collapses to null. -/
def strOrNone (o : Option String) : Option String :=
  match o with
  | some s => if s = "" then none else some s
  | none => none

/-- `x || d` on a string field. -/
def strOrD (s d : String) : String := if s = "" then d else s

/-- Firestore `orderBy('scheduledAt', 'asc')` key order: null sorts first,
then ISO-8601 timestamps, whose lexicographic order is chronological. -/
def schedLe (a b : Option String) : Prop :=
  match a, b with
  | none, _ => True
  | some _, none => False
  | some x, some y => x ≤ y

instance : DecidableRel schedLe := fun a b => by
  unfold schedLe
  cases a <;> cases b <;> infer_instance

/-- The in-process comparator on merged rows: missing `dateTime` sorts
last (`if (!a.dateTime) return 1`), otherwise by date. -/
def rowLe (a b : UpcomingRow) : Prop :=
  match a.dateTime, b.dateTime with
  | none, _ => False
  | some _, none => True
  | some x, some y => x ≤ y

instance : DecidableRel rowLe := fun a b => by
  unfold rowLe
  cases a.dateTime <;> cases b.dateTime <;> infer_instance

/-- A scheduled-session query `where ... status == 'scheduled'`, ordered
by `scheduledAt`, limit 5. -/
def upcomingQuery (st : Store) (key : Session → String) (userId : String) :
    List Session :=
  ((st.sessions.filter fun s => key s = userId ∧ s.status = "scheduled").insertionSort
    fun a b => schedLe a.scheduledAt b.scheduledAt).take 5

/-- The merged, re-sorted, 3-row `upcomingSessions` list of the view
(the happy path of the inner `try`; on an inner query failure the
caught branch leaves the list empty or uses the same fallback shape). -/
def upcomingSessionsOf (st : Store) (userId : String) : List UpcomingRow :=
  let tRows := (upcomingQuery st (·.teacherId) userId).map fun s =>
    { id := s.id, skill := strOrD s.skillName "Session", teacherName := "You"
      learnerName := strOrD s.learnerName "Learner"
      dateTime := strOrNone s.scheduledAt
      status := strOrD s.status "scheduled", role := "teacher" : UpcomingRow }
  let lRows := (upcomingQuery st (·.learnerId) userId).map fun s =>
    { id := s.id, skill := strOrD s.skillName "Session"
      teacherName := strOrD s.teacherName "Teacher", learnerName := "You"
      dateTime := strOrNone s.scheduledAt
      status := strOrD s.status "scheduled", role := "learner" : UpcomingRow }
  ((tRows ++ lRows).insertionSort rowLe).take 3

/-- `Math.round(x * 10) / 10`: one decimal place. -/
def jsRound1 (x : ℚ) : ℚ := (jsRound (x * 10) : ℚ) / 10

/-- `getCredibility(userId)`. `storeFail` models a thrown store error
anywhere inside the outer `try` (caught: the default object is
returned); `upcomingFail` models the inner upcoming-sessions query
failure (caught: the list stays empty). The function is total into
`CredView`, so no field of the result can be missing. -/
def getCredibility (storeFail upcomingFail : Bool) (st : Store) (userId : String) :
    CredView :=
  if storeFail then defaultCredView
  else
    match st.users.find? (fun u => u.id = userId) with
    | none => defaultCredView
    | some data =>
      let teachingSkills := st.userSkills.filter fun u =>
        u.userId = userId ∧ u.type = "teach"
      let learningSkills := st.userSkills.filter fun u =>
        u.userId = userId ∧ u.type = "learn"
      let allFeedback := st.feedback.filter fun f => f.toUserId = userId
      let countRating : ℚ → ℕ := fun r => (allFeedback.filter fun f => f.rating = r).length
      let totalRating :=
        (allFeedback.filter fun f => 1 ≤ f.rating ∧ f.rating ≤ 5).foldl
          (fun t f => t + f.rating) (0 : ℚ)
      let totalFeedback := allFeedback.length
      let avgRating : ℚ := if 0 < totalFeedback then totalRating / totalFeedback else 0
      let pct : ℚ → ℤ := fun r =>
        if 0 < totalFeedback then jsRound ((countRating r : ℚ) / totalFeedback * 100)
        else 0
      let teacherSessions := completedTeacherSessions st userId
      let learnerSessions := completedLearnerSessions st userId
      let sessionsCompleted := teacherSessions.length + learnerSessions.length
      let studentsCount := ((teacherSessions.map (·.learnerId)).dedup).length
      let teachingHours := teacherSessions.length
      let upcoming := if upcomingFail then [] else upcomingSessionsOf st userId
      { credibilityScore := data.credibilityScore.getD 0
        sessionsCompleted := sessionsCompleted
        studentsCount := studentsCount
        teachingHours := teachingHours
        avgRating := jsRound1 avgRating
        ratingBreakdown :=
          { p5 := pct 5, p4 := pct 4, p3 := pct 3, p2 := pct 2, p1 := pct 1 }
        skillsTaughtCount := teachingSkills.length
        skillsLearnedCount := learningSkills.length
        totalReviews := totalFeedback
        upcomingSessions := upcoming
        stats :=
          { avgSkillScore := (data.credibilityStats.map (·.avgSkillScore)).getD 0
            avgTeachingRating := (data.credibilityStats.map (·.avgTeachingRating)).getD 0
            sessionCount := sessionsCompleted
            consistencyBonus := (data.credibilityStats.map (·.consistencyBonus)).getD 0 } }

end CredibilityService

/-! ## Spec-side formulations

For the refinement-style claims, the spec's own wording of the two
averages of the skill-score formula, to be compared with the service's
definitions. -/

namespace SkillScoreSpec

/-- Spec wording: mean over all graded assignments for the user and
skill of the stored 1–5 grade rescaled by `* 20`; `0` if there are none. -/
def assignmentAvg (st : Store) (userId skillId : String) : ℚ :=
  let graded := SkillScoreService.gradedAssignmentsOf st userId skillId
  if graded = [] then 0
  else (graded.map fun a => a.finalScore.getD 0 * 20).sum / graded.length

/-- Spec wording: fetch feedback addressed to the user, filter to those
whose session id is in the skill's completed-session set, then average
the ratings and multiply by 20; `0` if the filtered set is empty. -/
def feedbackAvg (st : Store) (userId skillId : String) : ℚ :=
  let rel := (st.feedback.filter fun f => f.toUserId = userId).filter fun f =>
    f.sessionId ∈ (SkillScoreService.relevantSessionsOf st userId skillId).map (·.id)
  if rel = [] then 0
  else (rel.map (·.rating)).sum / rel.length * 20

end SkillScoreSpec

/-! ## Helper lemmas -/

theorem list_foldl_add_map {α : Type} (g : α → ℚ) (l : List α) (init : ℚ) :
    l.foldl (fun t a => t + g a) init = init + (l.map g).sum := by
  induction l generalizing init with
  | nil => simp
  | cons h tl ih => simp [ih, add_assoc]

theorem jsRound_nonneg {x : ℚ} (h : 0 ≤ x) : 0 ≤ jsRound x := by
  unfold jsRound
  exact Int.le_floor.mpr (by push_cast; linarith)

theorem jsRound_le_of_le {x : ℚ} {n : ℤ} (h : x ≤ n) : jsRound x ≤ n := by
  unfold jsRound
  have : ⌊x + 1 / 2⌋ < n + 1 := Int.floor_lt.mpr (by push_cast; linarith)
  omega

/-- The code-side assignment average (forEach accumulation over the
graded snapshot) equals the spec-side mean. -/
theorem assignmentAvgOf_eq_spec (st : Store) (userId skillId : String) :
    SkillScoreService.assignmentAvgOf st userId skillId =
      SkillScoreSpec.assignmentAvg st userId skillId := by
  unfold SkillScoreService.assignmentAvgOf SkillScoreSpec.assignmentAvg
  simp only [List.isEmpty_iff, list_foldl_add_map, zero_add]

/-- The code-side relevant-feedback list equals the spec-side two-step
filter. -/
theorem relevantFeedbackOf_eq_spec (st : Store) (userId skillId : String) :
    SkillScoreService.relevantFeedbackOf st userId skillId =
      (st.feedback.filter fun f => f.toUserId = userId).filter (fun f =>
        f.sessionId ∈
          (SkillScoreService.relevantSessionsOf st userId skillId).map (·.id)) := by
  unfold SkillScoreService.relevantFeedbackOf SkillScoreService.feedbackToUserOf
  rfl

/-- The code-side feedback average equals the spec-side mean-times-20. -/
theorem feedbackAvgOf_eq_spec (st : Store) (userId skillId : String) :
    SkillScoreService.feedbackAvgOf st userId skillId =
      SkillScoreSpec.feedbackAvg st userId skillId := by
  unfold SkillScoreService.feedbackAvgOf SkillScoreSpec.feedbackAvg
  rw [relevantFeedbackOf_eq_spec]
  simp only [List.isEmpty_iff, list_foldl_add_map, zero_add]

/-! ## Concrete fixtures -/

/-- A completed guitar session between teacher `t` and learner `u`. -/
def exSession (i : String) : Session :=
  { id := i, mode := "single", teacherId := "t", teacherName := "Tea"
    learnerId := "u", learnerName := "Ursa", skillId := "guitar"
    skillName := "Guitar", learnerSkill := none, scheduledAt := none
    status := "completed", endedAt := none, completedAt := none }

/-- A graded guitar assignment of user `u` with the given 1–5 grade. -/
def exAssignment (i : String) (grade : ℚ) : Assignment :=
  { id := i, sessionId := "s1", userId := "u", skillId := "guitar"
    skillName := "Guitar", questions := ["q1"], submitted := true, graded := true
    finalScore := some grade, gradedBy := some "t", gradedAt := some "t0"
    graderComment := some "" }

/-- Feedback from giver `t` in role `learner` addressed to `u`, tied to
the given session. -/
def exFeedback (i sid : String) (rating : ℚ) : Feedback :=
  { id := i, sessionId := sid, fromUserId := "t", toUserId := "u"
    role := some "learner", rating := rating, comment := "", createdAt := "t0" }

/-- Store for the spec's weighting example: one graded assignment with
grade 4 (`assignmentAvg = 80`), one rating-5 feedback tied to a
completed guitar session (`feedbackAvg = 100`), twelve completed guitar
sessions (`sessionCount = 12`, consistency `min(120,100) = 100`). -/
def c1Store : Store :=
  { assignments := [exAssignment "a1" 4]
    feedback := [exFeedback "f1" "s1" 5]
    sessions := ["s1", "s2", "s3", "s4", "s5", "s6", "s7", "s8", "s9", "s10",
        "s11", "s12"].map exSession
    skillScores := [], userSkills := [], users := [] }

/-! ## C1 -/

/-- C1: for every (user, skill) pair, `recomputeSkillScore` produces
`finalScore = round(assignmentAvg*0.60 + feedbackAvg*0.30 +
min(sessionCount*10,100)*0.10)` with `assignmentAvg` the mean of the
stored 1–5 grades times 20 (0 when there are none); the spec's example
`assignmentAvg=80, feedbackAvg=100, sessionCount=12` yields 88; and a
pair with no graded assignments, no feedback and no completed sessions
yields 0. -/
theorem c1_skill_score_formula :
    (∀ st userId skillId skillName now,
      (SkillScoreService.recomputeSkillScore st userId skillId skillName now).finalScore =
        round (SkillScoreSpec.assignmentAvg st userId skillId * 0.60 +
          SkillScoreSpec.feedbackAvg st userId skillId * 0.30 +
          ((min (SkillScoreService.sessionCountOf st userId skillId * 10) 100 : ℕ) : ℚ)
            * 0.10)) ∧
    (SkillScoreService.recomputeSkillScore c1Store "u" "guitar" "Guitar" "t1").finalScore
      = 88 ∧
    (∀ st userId skillId skillName now,
      SkillScoreService.gradedAssignmentsOf st userId skillId = [] →
      SkillScoreService.feedbackToUserOf st userId = [] →
      SkillScoreService.relevantSessionsOf st userId skillId = [] →
      (SkillScoreService.recomputeSkillScore st userId skillId skillName now).finalScore
        = 0) := by
  refine ⟨?_, ?_, ?_⟩
  · intro st userId skillId skillName now
    show SkillScoreService.finalScoreOf st userId skillId = _
    unfold SkillScoreService.finalScoreOf SkillScoreService.weightedScoreOf
      SkillScoreService.consistencyScoreOf
    rw [assignmentAvgOf_eq_spec, feedbackAvgOf_eq_spec, jsRound_eq_round]
  · show SkillScoreService.finalScoreOf c1Store "u" "guitar" = 88
    norm_num +decide [SkillScoreService.finalScoreOf, SkillScoreService.weightedScoreOf,
      SkillScoreService.assignmentAvgOf, SkillScoreService.feedbackAvgOf,
      SkillScoreService.consistencyScoreOf, SkillScoreService.sessionCountOf,
      SkillScoreService.relevantSessionsOf, SkillScoreService.relevantFeedbackOf,
      SkillScoreService.feedbackToUserOf, SkillScoreService.gradedAssignmentsOf,
      c1Store, exSession, exAssignment, exFeedback, jsRound, List.filter, List.foldl]
  · intro st userId skillId skillName now h1 h2 h3
    show SkillScoreService.finalScoreOf st userId skillId = 0
    unfold SkillScoreService.finalScoreOf SkillScoreService.weightedScoreOf
      SkillScoreService.assignmentAvgOf SkillScoreService.feedbackAvgOf
      SkillScoreService.consistencyScoreOf SkillScoreService.sessionCountOf
      SkillScoreService.relevantFeedbackOf
    rw [h1, h2, h3]
    norm_num [jsRound]

/-- Witness for C1 at a concrete input: the zero-data branch applied to
the empty store, together with the hypotheses it discharges. -/
theorem c1_skill_score_formula_witness :
    SkillScoreService.gradedAssignmentsOf
        { assignments := [], feedback := [], sessions := [], skillScores := []
          userSkills := [], users := [] } "u" "guitar" = [] ∧
    (SkillScoreService.recomputeSkillScore
        { assignments := [], feedback := [], sessions := [], skillScores := []
          userSkills := [], users := [] } "u" "guitar" "Guitar" "t1").finalScore = 0 :=
  ⟨by decide, c1_skill_score_formula.2.2 _ "u" "guitar" "Guitar" "t1"
    (by decide) (by decide) (by decide)⟩

/-! ## C4 -/

/-- C4: `recomputeSkillScore` is idempotent — running it a second time
on the store produced by the first run (no other data change) yields a
record identical in every field except `updatedAt`. -/
theorem c4_recompute_idempotent (st : Store) (userId skillId skillName t₁ t₂ : String) :
    (SkillScoreService.recomputeSkillScoreRun
        (SkillScoreService.recomputeSkillScoreRun st userId skillId skillName t₁).2
        userId skillId skillName t₂).1 =
      { (SkillScoreService.recomputeSkillScoreRun st userId skillId skillName t₁).1 with
        updatedAt := t₂ } := rfl

/-! ## C3 -/

/-- A user document for `u` with no score fields yet. -/
def exUser : UserDoc := { id := "u", credibilityScore := none, credibilityStats := none }

/-- Store for the spec's clamping example: one stored skill score of 100
(`avgSkillScore = 100`), one rating-5 learner feedback
(`avgTeachingRating = 100`), and thirty completed sessions
(`consistencyBonus = 10`): the blend reaches 110 before clamping. -/
def c3Store : Store :=
  { assignments := []
    feedback := [exFeedback "f1" "s1" 5]
    sessions := ["s1", "s2", "s3", "s4", "s5", "s6", "s7", "s8", "s9", "s10",
        "s11", "s12", "s13", "s14", "s15", "s16", "s17", "s18", "s19", "s20",
        "s21", "s22", "s23", "s24", "s25", "s26", "s27", "s28", "s29",
        "s30"].map exSession
    skillScores := [{ id := "u_guitar", userId := "u", skillId := "guitar"
                      skillName := "Guitar", assignmentAvg := 100, feedbackAvg := 100
                      sessionCount := 30, finalScore := 100, updatedAt := "t0" }]
    userSkills := [], users := [exUser] }

/-- C3: both scores stay within 0–100: the skill-score `finalScore` does
for every store whose grades and ratings are within the domain model's
0–5 range, the credibility score does unconditionally (it is clamped
after computation), and the spec's pathological blend
(`avgSkillScore = 100`, `avgTeachingRating = 100`, bonus 10, i.e. 110
before clamping) yields exactly 100. -/
theorem c3_range_invariant :
    (∀ st userId skillId skillName now,
      (∀ a ∈ st.assignments, 0 ≤ a.finalScore.getD 0 ∧ a.finalScore.getD 0 ≤ 5) →
      (∀ f ∈ st.feedback, 0 ≤ f.rating ∧ f.rating ≤ 5) →
      0 ≤ (SkillScoreService.recomputeSkillScore st userId skillId skillName
            now).finalScore ∧
        (SkillScoreService.recomputeSkillScore st userId skillId skillName
          now).finalScore ≤ 100) ∧
    (∀ st userId, 0 ≤ CredibilityService.credibilityScoreOf st userId ∧
      CredibilityService.credibilityScoreOf st userId ≤ 100) ∧
    (CredibilityService.avgSkillScoreOf c3Store "u" = 100 ∧
      CredibilityService.avgTeachingRatingOf c3Store "u" = 100 ∧
      CredibilityService.consistencyBonusOf c3Store "u" = 10 ∧
      CredibilityService.credibilityScoreOf c3Store "u" = 100) := by
  refine ⟨?_, ?_, ?_⟩
  · intro st userId skillId skillName now hA hF
    have hAavg : 0 ≤ SkillScoreService.assignmentAvgOf st userId skillId ∧
        SkillScoreService.assignmentAvgOf st userId skillId ≤ 100 := by
      rw [assignmentAvgOf_eq_spec]
      unfold SkillScoreSpec.assignmentAvg
      by_cases hempty : SkillScoreService.gradedAssignmentsOf st userId skillId = []
      · rw [if_pos hempty]
        norm_num
      · have hlen : (0 : ℚ) <
            (SkillScoreService.gradedAssignmentsOf st userId skillId).length :=
          Nat.cast_pos.mpr (List.length_pos.mpr hempty)
        have hmem : ∀ x ∈ (SkillScoreService.gradedAssignmentsOf st userId
            skillId).map (fun a => a.finalScore.getD 0 * 20), 0 ≤ x ∧ x ≤ 100 := by
          intro x hx
          obtain ⟨a, ha, rfl⟩ := List.mem_map.1 hx
          have ha' : a ∈ st.assignments :=
            (List.mem_filter.1 ha).1
          obtain ⟨h0, h5⟩ := hA a ha'
          constructor <;> nlinarith
        have hsum0 : 0 ≤ ((SkillScoreService.gradedAssignmentsOf st userId
            skillId).map (fun a => a.finalScore.getD 0 * 20)).sum :=
          List.sum_nonneg fun x hx => (hmem x hx).1
        have hsum100 : ((SkillScoreService.gradedAssignmentsOf st userId
            skillId).map (fun a => a.finalScore.getD 0 * 20)).sum ≤
            ((SkillScoreService.gradedAssignmentsOf st userId skillId).map
              (fun a => a.finalScore.getD 0 * 20)).length • (100 : ℚ) :=
          List.sum_le_card_nsmul _ _ fun x hx => (hmem x hx).2
        rw [List.length_map, nsmul_eq_mul] at hsum100
        simp only [if_neg hempty]
        constructor
        · exact div_nonneg hsum0 hlen.le
        · rw [div_le_iff₀ hlen]
          linarith
    have hFavg : 0 ≤ SkillScoreService.feedbackAvgOf st userId skillId ∧
        SkillScoreService.feedbackAvgOf st userId skillId ≤ 100 := by
      rw [feedbackAvgOf_eq_spec]
      unfold SkillScoreSpec.feedbackAvg
      by_cases hempty : ((st.feedback.filter fun f => f.toUserId = userId).filter
          fun f => f.sessionId ∈
            (SkillScoreService.relevantSessionsOf st userId skillId).map (·.id)) = []
      · rw [if_pos hempty]
        norm_num
      · have hlen : (0 : ℚ) < (((st.feedback.filter fun f => f.toUserId =
            userId).filter fun f => f.sessionId ∈
              (SkillScoreService.relevantSessionsOf st userId skillId).map
                (·.id)).length) := Nat.cast_pos.mpr (List.length_pos.mpr hempty)
        have hmem : ∀ x ∈ (((st.feedback.filter fun f => f.toUserId =
            userId).filter fun f => f.sessionId ∈
              (SkillScoreService.relevantSessionsOf st userId skillId).map
                (·.id)).map (·.rating)), 0 ≤ x ∧ x ≤ 5 := by
          intro x hx
          obtain ⟨f, hf, rfl⟩ := List.mem_map.1 hx
          exact hF f (List.mem_filter.1 (List.mem_filter.1 hf).1).1
        have hsum0 : 0 ≤ ((((st.feedback.filter fun f => f.toUserId =
            userId).filter fun f => f.sessionId ∈
              (SkillScoreService.relevantSessionsOf st userId skillId).map
                (·.id)).map (·.rating)).sum) :=
          List.sum_nonneg fun x hx => (hmem x hx).1
        have hsum5 : ((((st.feedback.filter fun f => f.toUserId =
            userId).filter fun f => f.sessionId ∈
              (SkillScoreService.relevantSessionsOf st userId skillId).map
                (·.id)).map (·.rating)).sum) ≤
            ((((st.feedback.filter fun f => f.toUserId = userId).filter
              fun f => f.sessionId ∈
                (SkillScoreService.relevantSessionsOf st userId skillId).map
                  (·.id)).map (·.rating)).length) • (5 : ℚ) :=
          List.sum_le_card_nsmul _ _ fun x hx => (hmem x hx).2
        rw [List.length_map, nsmul_eq_mul] at hsum5
        simp only [if_neg hempty]
        constructor
        · positivity
        · have hdiv : (((st.feedback.filter fun f => f.toUserId =
              userId).filter fun f => f.sessionId ∈
                (SkillScoreService.relevantSessionsOf st userId skillId).map
                  (·.id)).map (·.rating)).sum /
              (((st.feedback.filter fun f => f.toUserId = userId).filter
                fun f => f.sessionId ∈
                  (SkillScoreService.relevantSessionsOf st userId skillId).map
                    (·.id)).length) ≤ 5 := by
            rw [div_le_iff₀ hlen]
            linarith
          linarith
    have hCons : (0 : ℚ) ≤ (SkillScoreService.consistencyScoreOf st userId skillId : ℚ)
        ∧ (SkillScoreService.consistencyScoreOf st userId skillId : ℚ) ≤ 100 := by
      constructor
      · positivity
      · exact_mod_cast Nat.cast_le.mpr
          (min_le_right (SkillScoreService.sessionCountOf st userId skillId * 10) 100)
    show 0 ≤ SkillScoreService.finalScoreOf st userId skillId ∧
      SkillScoreService.finalScoreOf st userId skillId ≤ 100
    unfold SkillScoreService.finalScoreOf SkillScoreService.weightedScoreOf
    constructor
    · apply jsRound_nonneg
      nlinarith [hAavg.1, hFavg.1, hCons.1]
    · apply jsRound_le_of_le
      push_cast
      nlinarith [hAavg.2, hFavg.2, hCons.2]
  · intro st userId
    unfold CredibilityService.credibilityScoreOf
    constructor
    · exact jsRound_nonneg (le_min (le_max_right _ _) (by norm_num))
    · apply jsRound_le_of_le
      exact_mod_cast min_le_right _ (100 : ℚ)
  · refine ⟨?_, ?_, ?_, ?_⟩
    · norm_num +decide [CredibilityService.avgSkillScoreOf,
        CredibilityService.topSkillScores, c3Store, exSession, exFeedback, exUser,
        List.insertionSort, List.orderedInsert, List.filter, List.foldl, List.take]
    · norm_num +decide [CredibilityService.avgTeachingRatingOf,
        CredibilityService.teachingFeedbackOf, c3Store, exSession, exFeedback, exUser,
        List.filter, List.foldl]
    · decide
    · norm_num +decide [CredibilityService.credibilityScoreOf,
        CredibilityService.credBaseOf, CredibilityService.avgSkillScoreOf,
        CredibilityService.avgTeachingRatingOf, CredibilityService.teachingFeedbackOf,
        CredibilityService.topSkillScores, CredibilityService.consistencyBonusOf,
        CredibilityService.consistencyBonusFor, CredibilityService.credSessionCountOf,
        CredibilityService.completedLearnerSessions,
        CredibilityService.completedTeacherSessions, c3Store, exSession, exFeedback,
        exUser, List.insertionSort, List.orderedInsert, List.filter, List.foldl,
        List.take, jsRound, min_def, max_def]

/-- Witness for C3 at a concrete input: the bounded-grade hypotheses
hold in `c1Store`, and the skill score there is within 0–100. -/
theorem c3_range_invariant_witness :
    (∀ a ∈ c1Store.assignments, 0 ≤ a.finalScore.getD 0 ∧ a.finalScore.getD 0 ≤ 5) ∧
    0 ≤ (SkillScoreService.recomputeSkillScore c1Store "u" "guitar" "Guitar"
          "t1").finalScore ∧
      (SkillScoreService.recomputeSkillScore c1Store "u" "guitar" "Guitar"
        "t1").finalScore ≤ 100 :=
  ⟨by decide, c3_range_invariant.1 c1Store "u" "guitar" "Guitar" "t1"
    (by decide) (by decide)⟩

/-! ## C5 -/

/-- C5: the pre-bonus base of the credibility blend is the arithmetic
mean when both components are present, the single present component
(not halved) when exactly one is, and 0 when neither is — "present"
meaning the respective query snapshot is non-empty. -/
theorem c5_credibility_blend (st : Store) (userId : String) :
    (CredibilityService.topSkillScores st userId ≠ [] →
      CredibilityService.teachingFeedbackOf st userId ≠ [] →
      CredibilityService.credBaseOf st userId =
        (CredibilityService.avgSkillScoreOf st userId +
          CredibilityService.avgTeachingRatingOf st userId) / 2) ∧
    (CredibilityService.topSkillScores st userId ≠ [] →
      CredibilityService.teachingFeedbackOf st userId = [] →
      CredibilityService.credBaseOf st userId =
        CredibilityService.avgSkillScoreOf st userId) ∧
    (CredibilityService.topSkillScores st userId = [] →
      CredibilityService.teachingFeedbackOf st userId ≠ [] →
      CredibilityService.credBaseOf st userId =
        CredibilityService.avgTeachingRatingOf st userId) ∧
    (CredibilityService.topSkillScores st userId = [] →
      CredibilityService.teachingFeedbackOf st userId = [] →
      CredibilityService.credBaseOf st userId = 0) := by
  unfold CredibilityService.credBaseOf
  refine ⟨?_, ?_, ?_, ?_⟩ <;> intro h1 h2 <;>
    simp [List.isEmpty_iff, h1, h2]

/-- Witness for C5 at a concrete input: in `c3Store` both components
are present and the base is their mean. -/
theorem c5_credibility_blend_witness :
    CredibilityService.topSkillScores c3Store "u" ≠ [] ∧
    CredibilityService.teachingFeedbackOf c3Store "u" ≠ [] ∧
    CredibilityService.credBaseOf c3Store "u" =
      (CredibilityService.avgSkillScoreOf c3Store "u" +
        CredibilityService.avgTeachingRatingOf c3Store "u") / 2 :=
  ⟨by decide, by decide, (c5_credibility_blend c3Store "u").1 (by decide) (by decide)⟩

/-! ## C6 -/

/-- C6: the consistency bonus is the step function of the total
completed-session count (teacher plus learner): +10 for ≥ 30, +5 for
≥ 15, +2 for ≥ 5, else 0; in particular counts 4, 5, 15, 29, 30 give
bonuses 0, 2, 5, 5, 10. -/
theorem c6_consistency_bonus :
    (∀ st userId, CredibilityService.consistencyBonusOf st userId =
      CredibilityService.consistencyBonusFor
        ((CredibilityService.completedTeacherSessions st userId).length +
          (CredibilityService.completedLearnerSessions st userId).length)) ∧
    (∀ n, CredibilityService.consistencyBonusFor n =
      if 30 ≤ n then 10 else if 15 ≤ n then 5 else if 5 ≤ n then 2 else 0) ∧
    CredibilityService.consistencyBonusFor 4 = 0 ∧
    CredibilityService.consistencyBonusFor 5 = 2 ∧
    CredibilityService.consistencyBonusFor 15 = 5 ∧
    CredibilityService.consistencyBonusFor 29 = 5 ∧
    CredibilityService.consistencyBonusFor 30 = 10 := by
  refine ⟨?_, fun n => rfl, by decide, by decide, by decide, by decide, by decide⟩
  intro st userId
  unfold CredibilityService.consistencyBonusOf CredibilityService.credSessionCountOf
  rw [Nat.add_comm]

/-! ## C7 -/

/-- A completed piano session of the same participants, for C7. -/
def c7PianoSession : Session :=
  { exSession "p1" with skillId := "piano", skillName := "Piano" }

/-- Store with one completed guitar and one completed piano session,
and one feedback to `u` tied to the piano session. -/
def c7Store : Store :=
  { assignments := [], feedback := [exFeedback "fp" "p1" 5]
    sessions := [exSession "s1", c7PianoSession]
    skillScores := [], userSkills := [], users := [] }

/-- C7: the skill-score feedback average is exactly the mean (times 20)
of the feedback addressed to the user whose session id lies in the
skill's completed-session set (0 when that set is empty), and — when
session ids are unique — feedback tied to a session of another skill
never contributes. -/
theorem c7_feedback_filtering (st : Store) (userId skillId : String) :
    (SkillScoreService.feedbackAvgOf st userId skillId =
      SkillScoreSpec.feedbackAvg st userId skillId) ∧
    (∀ f t, (st.sessions.map (·.id)).Nodup → f ∈ st.feedback → t ∈ st.sessions →
      f.sessionId = t.id → t.skillId ≠ skillId →
      f ∉ SkillScoreService.relevantFeedbackOf st userId skillId) := by
  refine ⟨feedbackAvgOf_eq_spec st userId skillId, ?_⟩
  intro f t hnodup hf ht hid hskill hmem
  unfold SkillScoreService.relevantFeedbackOf SkillScoreService.feedbackToUserOf
    at hmem
  have h1 := List.mem_filter.1 hmem
  have hmemids : f.sessionId ∈
      (SkillScoreService.relevantSessionsOf st userId skillId).map (·.id) := by
    simpa using h1.2
  obtain ⟨r, hr, hrid⟩ := List.mem_map.1 hmemids
  have hrsess : r ∈ st.sessions := by
    unfold SkillScoreService.relevantSessionsOf at hr
    exact (List.mem_filter.1 (List.mem_filter.1 hr).1).1
  have hrskill : r.skillId = skillId := by
    unfold SkillScoreService.relevantSessionsOf at hr
    have h2 := (List.mem_filter.1 (List.mem_filter.1 hr).1).2
    simp only [decide_eq_true_eq, Bool.and_eq_true] at h2
    exact h2.1
  have hrt : r = t := List.inj_on_of_nodup_map hnodup hrsess ht (by rw [hrid, hid])
  exact hskill (hrt ▸ hrskill)

/-- Witness for C7 at a concrete input: in `c7Store` the piano-session
feedback does not contribute to the guitar skill score. -/
theorem c7_feedback_filtering_witness :
    (c7Store.sessions.map (·.id)).Nodup ∧
    exFeedback "fp" "p1" 5 ∈ c7Store.feedback ∧
    c7PianoSession ∈ c7Store.sessions ∧
    exFeedback "fp" "p1" 5 ∉ SkillScoreService.relevantFeedbackOf c7Store "u" "guitar" :=
  ⟨by decide, by decide, by decide,
    (c7_feedback_filtering c7Store "u" "guitar").2 (exFeedback "fp" "p1" 5)
      c7PianoSession (by decide) (by decide) (by decide) (by decide) (by decide)⟩

/-! ## C8 -/

/-- C8: `getCredibility` always yields the total `CredView` shape (no
field can be missing), substitutes the fully-populated zero/empty
default object on an internal store error and on a nonexistent user,
and renders absent user score data as zero defaults. -/
theorem c8_getCredibility_defaults (storeFail upcomingFail : Bool) (st : Store)
    (userId : String) :
    (storeFail = true →
      CredibilityService.getCredibility storeFail upcomingFail st userId =
        defaultCredView) ∧
    (st.users.find? (fun u => u.id = userId) = none →
      CredibilityService.getCredibility storeFail upcomingFail st userId =
        defaultCredView) ∧
    (∀ u, st.users.find? (fun v => v.id = userId) = some u →
      u.credibilityScore = none → u.credibilityStats = none →
      (CredibilityService.getCredibility storeFail upcomingFail st
          userId).credibilityScore = 0 ∧
      (CredibilityService.getCredibility storeFail upcomingFail st
          userId).stats.avgSkillScore = 0 ∧
      (CredibilityService.getCredibility storeFail upcomingFail st
          userId).stats.avgTeachingRating = 0 ∧
      (CredibilityService.getCredibility storeFail upcomingFail st
          userId).stats.consistencyBonus = 0) := by
  refine ⟨?_, ?_, ?_⟩
  · intro h
    simp [CredibilityService.getCredibility, h]
  · intro h
    by_cases hsf : storeFail = true
    · simp [CredibilityService.getCredibility, hsf]
    · simp [CredibilityService.getCredibility, hsf, h]
  · intro u hu hscore hstats
    by_cases hsf : storeFail = true
    · simp [CredibilityService.getCredibility, hsf, defaultCredView]
    · refine ⟨?_, ?_, ?_, ?_⟩ <;>
        simp [CredibilityService.getCredibility, hsf, hu, hscore, hstats]

/-- A store with no documents at all, for the C8 witness. -/
def c8EmptyStore : Store :=
  { assignments := [], feedback := [], sessions := [], skillScores := []
    userSkills := [], users := [] }

/-- Witness for C8 at a concrete input: on a store with no users the
view is the default object. -/
theorem c8_getCredibility_defaults_witness :
    c8EmptyStore.users.find? (fun u => u.id = "u") = none ∧
    CredibilityService.getCredibility false false c8EmptyStore "u" = defaultCredView :=
  ⟨by decide, (c8_getCredibility_defaults false false c8EmptyStore "u").2.1 (by decide)⟩

/-! ## C9 -/

/-- Legacy user-skill record with a two-decimal score and one prior
session, exposing the rounding step of the running-average update. -/
def c9Store : Store :=
  { assignments := [], feedback := [], sessions := [], skillScores := []
    userSkills := [{ id := "u_guitar", userId := "u", skillId := "guitar"
                     skillName := "Guitar", type := "", score := 1/100, sessions := 1
                     lastUpdated := "t0" }]
    users := [] }

/-- C9 counterexample: with `oldScore = 0.01`, `sessions = 1` and a new
grade of 1 (sample 20), the claimed formula gives
`(0.01*1 + 20)/2 = 10.005`, but the stored score is `10.01` — the code
rounds the running average to two decimals before storing. -/
theorem c9_counterexample_two_decimal_rounding :
    (UserSkillsService.updateSkillScore c9Store "u" "guitar" "Guitar" 1 "t1").1.score
        = 1001 / 100 ∧
      ((1 : ℚ) / 100 * 1 + 1 * 20) / (1 + 1) ≠ 1001 / 100 := by
  constructor
  · norm_num +decide [UserSkillsService.updateSkillScore,
      UserSkillsService.getOrCreateUserSkill, c9Store, jsRound2, jsRound, List.find?]
  · norm_num

/-- C9 amended: the legacy record is updated by the running-average
formula rounded to two decimals,
`newScore = round2((oldScore*sessions + grade*20)/(sessions+1))`, and
`sessions` is incremented by exactly 1. -/
theorem c9_legacy_running_average (st : Store) (userId skillId skillName : String)
    (grade : ℚ) (now : String) :
    (UserSkillsService.updateSkillScore st userId skillId skillName grade now).1.score =
      jsRound2
        (((UserSkillsService.getOrCreateUserSkill st userId skillId skillName
            now).1.score *
          ((UserSkillsService.getOrCreateUserSkill st userId skillId skillName
            now).1.sessions : ℚ) + grade * 20) /
          (((UserSkillsService.getOrCreateUserSkill st userId skillId skillName
            now).1.sessions : ℚ) + 1)) ∧
    (UserSkillsService.updateSkillScore st userId skillId skillName grade
        now).1.sessions =
      (UserSkillsService.getOrCreateUserSkill st userId skillId skillName
        now).1.sessions + 1 :=
  ⟨rfl, rfl⟩

/-! ## C10 -/

/-- C10: calling `completeSession` on an already-completed session (as a
participant) returns the stored session and performs no write at all —
the store comes back unchanged, so no assignment creation and no
recompute can have happened, whatever the injected post-completion
block would do. -/
theorem c10_complete_session_idempotent_noop (post : SessionService.PostFn)
    (st : Store) (now sessionId userId : String) (sess : Session)
    (hfind : st.sessions.find? (fun s => s.id = sessionId) = some sess)
    (hpart : sess.teacherId = userId ∨ sess.learnerId = userId)
    (hdone : sess.status = "completed") :
    SessionService.completeSession post st now sessionId userId = .ok (sess, st) := by
  unfold SessionService.completeSession
  simp only [hfind]
  have hno : ¬(sess.teacherId ≠ userId ∧ sess.learnerId ≠ userId) := by
    rcases hpart with h | h <;> simp [h]
  rw [if_neg hno, if_pos hdone]

/-- Witness for C10 at a concrete input: re-completing the completed
session `s1` of `c7Store` returns it unchanged with the same store. -/
theorem c10_complete_session_idempotent_noop_witness :
    c7Store.sessions.find? (fun s => s.id = "s1") = some (exSession "s1") ∧
    SessionService.completeSession (fun s _ => .ok s) c7Store "now" "s1" "u" =
      .ok (exSession "s1", c7Store) :=
  ⟨by decide,
    c10_complete_session_idempotent_noop (fun s _ => .ok s) c7Store "now" "s1" "u"
      (exSession "s1") (by decide) (by decide) (by decide)⟩

/-! ## C2 -/

/-- An always-throwing `recomputeSkillScore`, modelling a
scoring-pipeline failure observed at a trigger call site. -/
def failSkillRecompute : FeedbackService.ReSkillFn := fun _ _ _ _ => .error ()

/-- An always-throwing `recomputeCredibilityScore`. -/
def failCredRecompute : FeedbackService.ReCredFn := fun _ _ => .error ()

/-- One completed guitar session and nothing else. -/
def c2Store : Store :=
  { assignments := [], feedback := [], sessions := [exSession "s1"]
    skillScores := [], userSkills := [], users := [] }

/-- C2 counterexample: a valid feedback submission whose subsequent
recompute throws does NOT succeed — `submitFeedback` returns an error
(the feedback record itself is already in the carried store, i.e. the
write is not rolled back, yet the call throws instead of returning the
feedback). -/
theorem c2_counterexample_feedback_throws :
    FeedbackService.submitFeedback failSkillRecompute failCredRecompute c2Store
        "fb1" "now" "s1" "u" 5 none =
      .error (500, { c2Store with feedback :=
        [{ id := "fb1", sessionId := "s1", fromUserId := "u", toUserId := "t"
           role := some "learner", rating := 5, comment := "", createdAt := "now" }] })
    := rfl

/-- The legacy running-average update touches only the `userSkills`
collection: the assignments list is unchanged. -/
theorem updateSkillScore_assignments (st : Store) (userId skillId skillName : String)
    (grade : ℚ) (now : String) :
    (UserSkillsService.updateSkillScore st userId skillId skillName grade
      now).2.assignments = st.assignments := by
  unfold UserSkillsService.updateSkillScore UserSkillsService.getOrCreateUserSkill
  cases h : st.userSkills.find? (fun u =>
    u.id = userId ++ "_" ++ skillId) <;> simp [h]

/-- C2 amended: the trigger call sites never roll back the primary
write — the feedback record (resp. the graded assignment) is still in
the store carried by the error — but the feedback-submission and
assignment-grading handlers do not catch a recompute failure: they
propagate it and therefore throw instead of returning the primary
result. Only session completion catches the failure of its
post-completion block and still succeeds. -/
theorem c2_no_rollback_but_error_propagates :
    (∀ st sess freshId now sessionId userId (rating : ℚ) comment,
      st.sessions.find? (fun s => s.id = sessionId) = some sess →
      ¬(rating < 1 ∨ 5 < rating) →
      sess.status = "completed" →
      (sess.teacherId = userId ∨ sess.learnerId = userId) →
      (st.feedback.filter fun f =>
        f.sessionId = sessionId ∧ f.fromUserId = userId) = [] →
      ∃ e st', FeedbackService.submitFeedback failSkillRecompute failCredRecompute
          st freshId now sessionId userId rating comment = .error (e, st') ∧
        ∃ fb ∈ st'.feedback, fb.id = freshId ∧ fb.sessionId = sessionId ∧
          fb.fromUserId = userId ∧ fb.rating = rating) ∧
    (∀ st a sess now assignmentId graderId (scores : List (String × ℚ)) comment,
      st.assignments.find? (fun x => x.id = assignmentId) = some a →
      st.sessions.find? (fun s => s.id = a.sessionId) = some sess →
      sess.teacherId = graderId →
      a.submitted = true →
      a.graded = false →
      (a.questions.all fun qId => match scores.lookup qId with
        | none => false
        | some v => decide (1 ≤ v ∧ v ≤ 5)) = true →
      ∃ e st', AssignmentService.gradeAssignment failSkillRecompute failCredRecompute
          st now assignmentId graderId scores comment = .error (e, st') ∧
        ∃ a' ∈ st'.assignments, a'.id = assignmentId ∧ a'.graded = true) ∧
    (∀ st sess now sessionId userId,
      st.sessions.find? (fun s => s.id = sessionId) = some sess →
      (sess.teacherId = userId ∨ sess.learnerId = userId) →
      sess.status = "scheduled" →
      ∃ res, SessionService.completeSession (fun _ _ => .error ()) st now sessionId
        userId = .ok res) := by
  refine ⟨?_, ?_, ?_⟩
  · intro st sess freshId now sessionId userId rating comment hfind hrating hdone
      hpart hempty
    unfold FeedbackService.submitFeedback
    rw [if_neg hrating]
    simp only [hfind]
    rw [if_neg (by simp [hdone])]
    rw [if_neg (by tauto)]
    rw [if_neg (not_not_intro (by rw [hempty]; rfl))]
    by_cases hc : sess.skillId ≠ "" ∧ sess.skillName ≠ ""
    · rw [if_pos hc]
      exact ⟨500, _, rfl, _, List.mem_append_right _ (List.mem_singleton.mpr rfl),
        rfl, rfl, rfl, rfl⟩
    · rw [if_neg hc]
      exact ⟨500, _, rfl, _, List.mem_append_right _ (List.mem_singleton.mpr rfl),
        rfl, rfl, rfl, rfl⟩
  · intro st a sess now assignmentId graderId scores comment hfindA hfindS hteacher
      hsub hgraded hvalid
    unfold AssignmentService.gradeAssignment
    simp only [hfindA, hfindS]
    rw [if_neg (by simp [hteacher])]
    rw [if_neg (by simp [hsub])]
    rw [if_neg (by simp [hgraded])]
    rw [if_neg (not_not_intro hvalid)]
    refine ⟨500, _, rfl, ?_⟩
    rw [updateSkillScore_assignments]
    have haid : a.id = assignmentId := by
      have := List.find?_some hfindA
      simpa using this
    refine ⟨_, List.mem_map_of_mem _ (List.mem_of_find?_eq_some hfindA), ?_, ?_⟩
    · rw [if_pos haid]
      exact haid
    · rw [if_pos haid]
  · intro st sess now sessionId userId hfind hpart hsched
    unfold SessionService.completeSession
    simp only [hfind]
    rw [if_neg (by tauto)]
    rw [if_neg (by simp [hsched])]
    rw [if_neg (by simp [hsched])]
    exact ⟨_, rfl⟩

/-- Witness for C2 at a concrete input: submitting valid feedback on
`c2Store` under a throwing recompute yields an error whose carried
store contains the written feedback record. -/
theorem c2_no_rollback_witness :
    c2Store.sessions.find? (fun s => s.id = "s1") = some (exSession "s1") ∧
    (exSession "s1").status = "completed" ∧
    ∃ e st', FeedbackService.submitFeedback failSkillRecompute failCredRecompute
        c2Store "fb1" "now" "s1" "u" 5 none = .error (e, st') ∧
      ∃ fb ∈ st'.feedback, fb.id = "fb1" ∧ fb.sessionId = "s1" ∧
        fb.fromUserId = "u" ∧ fb.rating = 5 :=
  ⟨by decide, by decide,
    c2_no_rollback_but_error_propagates.1 c2Store (exSession "s1") "fb1" "now" "s1"
      "u" 5 none (by decide) (by decide) (by decide) (by decide) (by decide)⟩

end PeerGrade
